import Mathlib

/-!
Verification of the `mcode-cache` caching facade (`index.js`) against its
natural-language specification.  The JavaScript class `cache` is shallowly
embedded: its mutable private fields become the record `CacheState`, each
method becomes a Lean function threading that state, thrown JS exceptions
become `Except JsErr`, and JS string values stored in the caches are
modelled as Lean `String`s (the repository caches file contents and string
values).  Association lists in insertion order model both the
`#cacheNamespaces` object and the two key-value stores.
-/

/-- JS exceptions that the embedded operations can raise.  `typeError`
models a property access on `null` (e.g. `this.#cache.get` after
`cacheClose`); `backendFault` models a connection-level rejection from the
Redis client; `unmodeledRegex` marks a glob pattern whose compiled regular
expression falls outside the regex fragment this embedding models (patterns
containing raw regex operators such as a backslash or a parenthesis) — no
theorem below relies on the behaviour of such patterns. -/
inductive JsErr
  | typeError
  | backendFault
  | unmodeledRegex
deriving DecidableEq

/-- The two backend kinds a namespace can be registered with, the string
tags `'node'` and `'redis'` of the source. -/
inductive CacheType
  | node
  | redis
deriving DecidableEq

/-- Lookup in an insertion-ordered association list, modelling a JS object
property read `obj[key]` (`none` plays the role of `undefined`). -/
def lookupAssoc {α : Type} : List (String × α) → String → Option α
  | [], _ => none
  | (k, v) :: rest, key => if k = key then some v else lookupAssoc rest key

/-- Update in an insertion-ordered association list, modelling a JS object
property write `obj[key] = v`: an existing key keeps its position, a new
key is appended. -/
def setAssoc {α : Type} (l : List (String × α)) (k : String) (v : α) :
    List (String × α) :=
  if l.any (fun kv => kv.1 = k) then
    l.map (fun kv => if kv.1 = k then (k, v) else kv)
  else l ++ [(k, v)]

/-- Characters matched by the JS regex class `\s`, used by the
`key.replace(/\s/g, ' ')` step of `cacheMakeKey`. -/
def isJsSpace (c : Char) : Bool :=
  c = ' ' || c = '\t' || c = '\n' || c = '\x0b' || c = '\x0c' || c = '\r' ||
  c = '\u00a0' || c = '\u1680' || ('\u2000' ≤ c && c ≤ '\u200a') ||
  c = '\u2028' || c = '\u2029' || c = '\u202f' || c = '\u205f' ||
  c = '\u3000' || c = '\ufeff'

/-- Step (1) of `cacheMakeKey`: `keySource.replace(/[\\/]/g, ':')`,
replacing each forward or backward slash with a colon. -/
def sepToColon (c : Char) : Char :=
  if c = '/' ∨ c = '\\' then ':' else c

/-- The step `key.replace(/\.\./g, '.')` of `cacheMakeKey`: one global
left-to-right pass replacing each non-overlapping occurrence of `".."`
with `"."` (the replacement text is not rescanned, matching the JS global
replace). -/
def collapseDoubleDots : List Char → List Char
  | '.' :: '.' :: rest => '.' :: collapseDoubleDots rest
  | c :: rest => c :: collapseDoubleDots rest
  | [] => []

/-- The steps `key.replace(/^X+|X+$/g, '')` of `cacheMakeKey`: remove the
leading run and the trailing run of characters satisfying `p`. -/
def stripEnds (p : Char → Bool) (l : List Char) : List Char :=
  ((l.dropWhile p).reverse.dropWhile p).reverse

/-- Embedding of `cacheMakeKey(keySource)` (src/index.js lines 459-478),
with the current namespace `this.cacheNamespace` passed explicitly.  The
source applies, in order: slashes to colons; every `\s` character to a
space; `".."` to `"."` globally; strip leading/trailing dots; strip
leading/trailing colons; prepend the namespace and a colon. -/
def cacheMakeKey (ns key : String) : String :=
  let s1 := key.toList.map sepToColon
  let s2 := s1.map (fun c => if isJsSpace c then ' ' else c)
  let s3 := collapseDoubleDots s2
  let s4 := stripEnds (fun c => c = '.') s3
  let s5 := stripEnds (fun c => c = ':') s4
  ns ++ ":" ++ String.mk s5

/-- Modelled from the spec (claim-side definition for the refinement check
of C4): the five-step normalization exactly as the spec words it — slashes
to colons, collapse `".."` to `"."`, strip dot runs, strip colon runs,
prepend the namespace — with no other transformation step.  The collapse
step is read as the same global non-overlapping pass the source performs. -/
def specNormalize (ns key : String) : String :=
  let s1 := key.toList.map sepToColon
  let s2 := collapseDoubleDots s1
  let s3 := stripEnds (fun c => c = '.') s2
  let s4 := stripEnds (fun c => c = ':') s3
  ns ++ ":" ++ String.mk s4

/-- Embedding of the JS `String.prototype.replace(searchString, '')` used
by `fileMakeKey`: remove the first occurrence of `pat` (anywhere in the
list), leave everything else unchanged; with an empty `pat` the string is
unchanged (JS replaces the empty match at position 0 by nothing). -/
def removeFirst (pat : List Char) : List Char → List Char
  | [] => []
  | c :: rest =>
      if pat.isPrefixOf (c :: rest) then (c :: rest).drop pat.length
      else c :: removeFirst pat rest

/-- Decides whether `pat` occurs as a contiguous sublist of `l`. -/
def occursIn (pat : List Char) : List Char → Bool
  | [] => pat.isEmpty
  | c :: rest => pat.isPrefixOf (c :: rest) || occursIn pat rest

/-- Embedding of `fileMakeKey(filePath)` (src/index.js lines 839-846) with
the ambient root directory (`this.fileGetRoot()`, derived from
`require.main.filename`) and the current namespace passed explicitly: the
source computes `filePath.replace(root, '')` and delegates to
`cacheMakeKey`. -/
def fileMakeKey (root ns filePath : String) : String :=
  cacheMakeKey ns (String.mk (removeFirst root.toList filePath.toList))

/-- Modelled from the spec (claim-side definition for the refinement check
of C9): strip `root` from `filePath` only when it is a prefix of
`filePath`, otherwise pass `filePath` through unchanged, then delegate to
the normalizer. -/
def fileMakeKeySpec (root ns filePath : String) : String :=
  cacheMakeKey ns
    (if root.toList.isPrefixOf filePath.toList then
      String.mk (filePath.toList.drop root.toList.length)
    else filePath)

/-- Atoms of the regex fragment produced by `_convertGlobToRegExp`:
a literal character, the regex `.` (one character), or the regex `.*`
(zero or more characters). -/
inductive GlobAtom
  | lit (c : Char)
  | anyOne
  | anyStar
deriving DecidableEq

/-- Suffixes of `s` reachable by consuming zero or more characters each
satisfying `dot`; used to interpret the regex `.*`. -/
def dotSuffixes (dot : Char → Bool) : List Char → List (List Char)
  | [] => [[]]
  | c :: cs => (c :: cs) :: (if dot c then dotSuffixes dot cs else [])

/-- Anchored matching of an atom sequence against a whole string, the
semantics of the regex `^...$` built by `_convertGlobToRegExp` (with `test`
and no multiline flag, `^`/`$` anchor to the ends of the input, so this is
whole-string matching).  `dot` is the character class of the regex `.`. -/
def matchAtoms (dot : Char → Bool) : List GlobAtom → List Char → Bool
  | [], s => s.isEmpty
  | .lit c :: as, s =>
      match s with
      | [] => false
      | x :: xs => (x = c) && matchAtoms dot as xs
  | .anyOne :: as, s =>
      match s with
      | [] => false
      | x :: xs => dot x && matchAtoms dot as xs
  | .anyStar :: as, s => (dotSuffixes dot s).any (fun suf => matchAtoms dot as suf)

/-- Character class of the JS regex `.` with no `s` flag: any character
except the four line terminators. -/
def jsDot (c : Char) : Bool :=
  !(c = '\n' || c = '\r' || c = '\u2028' || c = '\u2029')

/-- Characters of a glob pattern whose raw occurrence in the produced
regular expression would be a regex operator that this embedding does not
model (the source escapes none of them). -/
def jsRegexSpecial : List Char :=
  ['\\', '+', '(', ')', '\x7b', '\x7d', '|', '^', '$']

/-- Per-character semantics of `_convertGlobToRegExp` (src/index.js lines
1135-1144) composed with the JS-regex meaning of its output.  The source
performs four global string replaces building a regex text: `*` becomes
`.*`, `?` becomes `.`, `[` becomes `\[` and `]` becomes `\]` (so brackets
are escaped literals); every other character is left as-is in the regex, so
an unescaped `.` in the pattern is the regex any-character class.  The
replaces are per-character and non-interfering on this fragment, so the
compiled regex is the concatenation of per-character atoms.  Characters in
`jsRegexSpecial` would be raw regex operators and are outside the model. -/
def compileAtom (c : Char) : Option GlobAtom :=
  if c = '*' then some .anyStar
  else if c = '?' then some .anyOne
  else if c = '[' then some (.lit '[')
  else if c = ']' then some (.lit ']')
  else if c = '.' then some .anyOne
  else if c ∈ jsRegexSpecial then none
  else some (.lit c)

/-- Compiles a glob pattern through `_convertGlobToRegExp` into the atom
sequence of the produced anchored regex; `none` on patterns outside the
modelled fragment. -/
def compileGlob (p : String) : Option (List GlobAtom) :=
  p.toList.mapM compileAtom

/-- The predicate `_convertGlobToRegExp(p).test(s)` of the source, on the
modelled pattern fragment. -/
def globTest (p s : String) : Option Bool :=
  (compileGlob p).map (fun atoms => matchAtoms jsDot atoms s.toList)

/-- Modelled from the spec (claim-side definition for the refinement check
of C5): every character of the pattern other than `*` and `?` is an
escaped literal ("escapes all regex metacharacters"), `*` matches zero or
more of any character, `?` matches exactly one of any character, and the
match is anchored to the whole string. -/
def specGlobAtom (c : Char) : GlobAtom :=
  if c = '*' then .anyStar else if c = '?' then .anyOne else .lit c

/-- Claim-side glob predicate built from `specGlobAtom`. -/
def specGlobTest (p s : String) : Bool :=
  matchAtoms (fun _ => true) (p.toList.map specGlobAtom) s.toList

/-- Character class of the native Redis glob `?` and `*`: any character. -/
def redisDot (_ : Char) : Bool :=
  true

/-- Per-character semantics of the native Redis `KEYS` glob used by the
`redis` branches of the facade: `*` matches any sequence, `?` any single
character, other characters literally; `[` classes and `\` escapes are
outside the modelled fragment. -/
def redisGlobAtom (c : Char) : Option GlobAtom :=
  if c = '*' then some .anyStar
  else if c = '?' then some .anyOne
  else if c = '[' ∨ c = ']' ∨ c = '\\' then none
  else some (.lit c)

/-- Compiles a pattern under native Redis glob semantics; `none` outside
the modelled fragment. -/
def redisCompileGlob (p : String) : Option (List GlobAtom) :=
  p.toList.mapM redisGlobAtom

/-- JS values appearing as fields of the configuration object passed to
`addNamespace` (the source inspects them only through falsiness, `===`
comparison with string tags, and template-literal stringification). -/
inductive JsVal
  | vUndef
  | vNull
  | vStr (s : String)
  | vNum (n : Int)
deriving DecidableEq

/-- JS falsiness of a `JsVal`: `undefined`, `null`, the empty string and
the number 0 are falsy. -/
def JsVal.falsy : JsVal → Bool
  | .vUndef => true
  | .vNull => true
  | .vStr s => s = ""
  | .vNum n => n = 0

/-- JS string coercion of a `JsVal`, as performed by a template literal
or an object-property key. -/
def JsVal.toStr : JsVal → String
  | .vUndef => "undefined"
  | .vNull => "null"
  | .vStr s => s
  | .vNum n => toString n

/-- The caller-supplied namespace configuration object of `addNamespace`
(src/index.js lines 391-446); fields the source may read or write. -/
structure NamespaceArg where
  name : JsVal
  type : JsVal
  url : JsVal
  port : JsVal
  user : JsVal
  password : JsVal
deriving DecidableEq

/-- The private fields of the singleton `cache` class.  `nodeCache` is
`#cache` (`none` is the JS `null`, otherwise the node-cache store as an
association list); `redisClient` is `#redis` (`none` is `null`; the Bool
records whether the connection is in a faulted state, in which case every
operation on it rejects); `redisStore` is the server-side Redis data, which
survives client re-creation; `fileRoot` is the ambient root directory that
`fileGetRoot()` computes from `require.main.filename`.  Connection events
are asynchronous and not modelled beyond the `redisConnected` flag. -/
structure CacheState where
  cacheNamespace : String
  cacheNamespaces : List (String × CacheType)
  cacheEnabled : Bool
  redisEnabled : Bool
  nodeCache : Option (List (String × String))
  redisClient : Option Bool
  redisStore : List (String × String)
  redisConnected : Bool
  redisURL : String
  redisPort : String
  redisUser : String
  redisPassword : String
  fileRoot : String
deriving DecidableEq

/-- Backend kind of the current namespace: the source's test
`this.#cacheNamespaces[this.#cacheNamespace] === 'redis'` reads the
registry at the current namespace. -/
def currentType (st : CacheState) : Option CacheType :=
  lookupAssoc st.cacheNamespaces st.cacheNamespace

/-- Embedding of `this.fileMakeKey(key)` as called by the facade methods,
reading the root and current namespace from the state. -/
def fileMakeKeySt (st : CacheState) (key : String) : String :=
  fileMakeKey st.fileRoot st.cacheNamespace key

/-- Read primitive `this.#cache.get(cacheKey)`: a `TypeError` when `#cache`
is `null`, otherwise the stored value or `undefined`. -/
def nodeGet (st : CacheState) (cacheKey : String) : Except JsErr (Option String) :=
  match st.nodeCache with
  | none => .error .typeError
  | some store => .ok (lookupAssoc store cacheKey)

/-- Write primitive `this.#cache.set(cacheKey, value)`. -/
def nodeSet (st : CacheState) (cacheKey value : String) : Except JsErr CacheState :=
  match st.nodeCache with
  | none => .error .typeError
  | some store => .ok { st with nodeCache := some (setAssoc store cacheKey value) }

/-- Read primitive `this.#redis.get(cacheKey)`: a `TypeError` when `#redis`
is `null`, a rejection when the connection is faulted, otherwise the stored
value or `null` for a missing key. -/
def redisGetPrim (st : CacheState) (cacheKey : String) : Except JsErr (Option String) :=
  match st.redisClient with
  | none => .error .typeError
  | some faulted =>
      if faulted then .error .backendFault
      else .ok (lookupAssoc st.redisStore cacheKey)

/-- Write primitive `this.#redis.set(cacheKey, value)`. -/
def redisSetPrim (st : CacheState) (cacheKey value : String) : Except JsErr CacheState :=
  match st.redisClient with
  | none => .error .typeError
  | some faulted =>
      if faulted then .error .backendFault
      else .ok { st with redisStore := setAssoc st.redisStore cacheKey value }

/-- JS falsiness of `this.#cache.get`'s result, the `if (!value)` test of
`_cacheGet`: `undefined` and the empty string are falsy. -/
def falsyValue : Option String → Bool
  | none => true
  | some s => s = ""

/-- Embedding of the private `_cacheGet(cacheKey, cb)` (src/index.js lines
966-995).  The whole body is inside `try`; the `catch` returns `cb()`, so
this function never throws: disabled cache returns `cb()`; a missing or
falsy value invokes `cb()`, stores its result and returns it; a backend
exception (here: a `null` `#cache`) falls back to `cb()` with the state
unchanged.  The callback is modelled by the value it computes. -/
def cacheGetPriv (st : CacheState) (cacheKey cb : String) : String × CacheState :=
  if st.cacheEnabled = false then (cb, st)
  else
    match nodeGet st cacheKey with
    | .error _ => (cb, st)
    | .ok v =>
        if falsyValue v then
          match nodeSet st cacheKey cb with
          | .error _ => (cb, st)
          | .ok st2 => (cb, st2)
        else (v.getD "", st)

/-- Embedding of the private `_cacheSet(cacheKey, value)` (src/index.js
lines 1043-1059): inside `try`, a disabled cache returns without writing;
the `catch` only logs, so the function never throws. -/
def cacheSetPriv (st : CacheState) (cacheKey value : String) : CacheState :=
  if st.cacheEnabled = false then st
  else
    match nodeSet st cacheKey value with
    | .error _ => st
    | .ok st2 => st2

/-- Embedding of the private `_cacheDrop(cacheKey)` (src/index.js lines
1096-1099): `this.#cache.del(cacheKey)` with no `try`, so a `null` `#cache`
throws; returns the number of keys removed. -/
def cacheDropPriv (st : CacheState) (cacheKey : String) : Except JsErr (Nat × CacheState) :=
  match st.nodeCache with
  | none => .error .typeError
  | some store =>
      .ok (if store.any (fun kv => kv.1 = cacheKey) then 1 else 0,
        { st with nodeCache := some (store.filter (fun kv => !(kv.1 = cacheKey : Bool))) })

/-- Embedding of the private `_redisDrop(cacheKey)` (src/index.js lines
1111-1114): `this.#redis.del(cacheKey)` with no `try`. -/
def redisDropPriv (st : CacheState) (cacheKey : String) : Except JsErr (Nat × CacheState) :=
  match st.redisClient with
  | none => .error .typeError
  | some faulted =>
      if faulted then .error .backendFault
      else
        .ok (if st.redisStore.any (fun kv => kv.1 = cacheKey) then 1 else 0,
          { st with redisStore := st.redisStore.filter (fun kv => !(kv.1 = cacheKey : Bool)) })

/-- Embedding of the public `cacheGet(key, cb)` (src/index.js lines
488-501): builds the cache key with `fileMakeKey`; when the current
namespace is registered with kind `redis` it returns
`await this.#redis.get(cacheKey)` directly — with no `try`, without
consulting `#redisEnabled` and without ever invoking `cb` — otherwise it
delegates to `_cacheGet`.  The result is `none` when the redis branch reads
a missing key (`null`). -/
def cacheGet (st : CacheState) (key cb : String) :
    Except JsErr (Option String × CacheState) :=
  let cacheKey := fileMakeKeySt st key
  if currentType st = some CacheType.redis then
    match redisGetPrim st cacheKey with
    | .error e => .error e
    | .ok v => .ok (v, st)
  else
    let r := cacheGetPriv st cacheKey cb
    .ok (some r.1, r.2)

/-- Embedding of the public `cacheSet(key, value)` (src/index.js lines
511-524): redis-kind namespaces write through `this.#redis.set` (no `try`,
faults propagate), the rest through `_cacheSet` (never throws).  The JS
return value is not used by any caller and is dropped here. -/
def cacheSet (st : CacheState) (key value : String) : Except JsErr CacheState :=
  let cacheKey := fileMakeKeySt st key
  if currentType st = some CacheType.redis then
    redisSetPrim st cacheKey value
  else
    .ok (cacheSetPriv st cacheKey value)

/-- Embedding of the public `cacheDrop(key)` (src/index.js lines 536-549). -/
def cacheDrop (st : CacheState) (key : String) : Except JsErr (Nat × CacheState) :=
  let cacheKey := fileMakeKeySt st key
  if currentType st = some CacheType.redis then
    redisDropPriv st cacheKey
  else
    cacheDropPriv st cacheKey

/-- Embedding of the private `_cacheKeys(pattern)` (src/index.js lines
1127-1132): fetch every key of the node cache (throws on a `null` `#cache`)
and filter it with the compiled glob. -/
def cacheKeysPriv (st : CacheState) (pattern : String) : Except JsErr (List String) :=
  match st.nodeCache with
  | none => .error .typeError
  | some store =>
      match compileGlob pattern with
      | none => .error .unmodeledRegex
      | some atoms =>
          .ok ((store.map Prod.fst).filter (fun k => matchAtoms jsDot atoms k.toList))

/-- Read primitive `this.#redis.keys(pattern)` with native Redis glob
matching performed by the server. -/
def redisKeysPrim (st : CacheState) (pattern : String) : Except JsErr (List String) :=
  match st.redisClient with
  | none => .error .typeError
  | some faulted =>
      if faulted then .error .backendFault
      else
        match redisCompileGlob pattern with
        | none => .error .unmodeledRegex
        | some atoms =>
            .ok ((st.redisStore.map Prod.fst).filter
              (fun k => matchAtoms redisDot atoms k.toList))

/-- Deletion of a listed key set from the node cache
(`Promise.all(nodeKeys.map(key => this.#cache.del(key)))`). -/
def nodeDelAll (st : CacheState) (keys : List String) : CacheState :=
  { st with nodeCache :=
      st.nodeCache.map (fun store => store.filter (fun kv => !(keys.contains kv.1))) }

/-- Deletion of a listed key set from the Redis store
(`Promise.all(redisKeys.map(key => this.#redis.del(key)))`). -/
def redisDelAll (st : CacheState) (keys : List String) : CacheState :=
  { st with redisStore := st.redisStore.filter (fun kv => !(keys.contains kv.1)) }

/-- Loop body of `cacheDropAll` (src/index.js lines 564-598) over the
snapshot of registered namespaces: each namespace passing the name filter
and whose kind passes the cache filter has its keys matching
`"<namespace>:<pattern>"` listed and deleted, the listed count added to the
accumulator.  There is no `try` inside the loop, so a backend fault
propagates out of the whole method (`await` rethrows the rejection). -/
def cacheDropAllGo (cacheF nsF pattern : String) :
    List (String × CacheType) → CacheState → Nat → Except JsErr (Nat × CacheState)
  | [], st, acc => .ok (acc, st)
  | (nsName, t) :: rest, st, acc =>
      if nsName = nsF ∨ nsF = "*" then
        match t with
        | CacheType.node =>
            if cacheF = "node" ∨ cacheF = "*" then
              match cacheKeysPriv st (nsName ++ ":" ++ pattern) with
              | .error e => .error e
              | .ok keys =>
                  cacheDropAllGo cacheF nsF pattern rest (nodeDelAll st keys)
                    (acc + keys.length)
            else cacheDropAllGo cacheF nsF pattern rest st acc
        | CacheType.redis =>
            if cacheF = "redis" ∨ cacheF = "*" then
              match redisKeysPrim st (nsName ++ ":" ++ pattern) with
              | .error e => .error e
              | .ok keys =>
                  cacheDropAllGo cacheF nsF pattern rest (redisDelAll st keys)
                    (acc + keys.length)
            else cacheDropAllGo cacheF nsF pattern rest st acc
      else cacheDropAllGo cacheF nsF pattern rest st acc

/-- Embedding of the public `cacheDropAll({cache, namespace, pattern})`
(src/index.js lines 564-598); the three filters default to `"*"` at the
call sites modelled in the theorems. -/
def cacheDropAll (st : CacheState) (cacheF nsF pattern : String) :
    Except JsErr (Nat × CacheState) :=
  cacheDropAllGo cacheF nsF pattern st.cacheNamespaces st 0

/-- Embedding of the private `_redisInit()` (src/index.js lines 917-956):
an already-connected client is a warn-and-no-op; otherwise any existing
client is quit and a fresh client is created (its `connect`/`error` events
fire asynchronously and are not modelled; the new handle starts
unfaulted). -/
def redisInit (st : CacheState) : CacheState :=
  if st.redisConnected then st
  else { st with redisClient := some false }

/-- Embedding of the public `addNamespace(namespace)` (src/index.js lines
391-446), returning the (possibly mutated) argument object together with
the new state.  A missing/falsy `name` or `type` is a warn-and-no-op, as is
a `type` other than `'node'` or `'redis'`.  The first redis registration
while `#redis` is `null` writes defaulted `url`, `port`, `user` and
`password` fields into the argument object itself, copies their string
coercions into the private fields and initializes the client.  Finally the
registry entry `#cacheNamespaces[name] = type` is written unconditionally. -/
def addNamespace (st : CacheState) (arg : NamespaceArg) :
    NamespaceArg × CacheState :=
  if arg.name.falsy || arg.type.falsy then (arg, st)
  else if ¬(arg.type = JsVal.vStr "node") ∧ ¬(arg.type = JsVal.vStr "redis") then
    (arg, st)
  else
    let step :=
      if arg.type = JsVal.vStr "redis" ∧ st.redisClient = none then
        let arg2 : NamespaceArg :=
          { arg with
            url := if arg.url.falsy then JsVal.vStr st.redisURL else arg.url,
            port := if arg.port.falsy then JsVal.vNum 6379 else arg.port,
            user := if arg.user.falsy then JsVal.vNull else arg.user,
            password := if arg.password.falsy then JsVal.vNull else arg.password }
        let st2 :=
          { st with
            redisURL := arg2.url.toStr,
            redisPort := arg2.port.toStr,
            redisUser := arg2.user.toStr,
            redisPassword := arg2.password.toStr }
        (arg2, redisInit st2)
      else (arg, st)
    let kind := if step.1.type = JsVal.vStr "redis" then CacheType.redis else CacheType.node
    (step.1,
      { step.2 with
        cacheNamespaces := setAssoc step.2.cacheNamespaces step.1.name.toStr kind })

/-- Embedding of the public `cacheClose()` (src/index.js lines 697-709):
nulls `#cache`, quits and nulls `#redis`; no other field is touched. -/
def cacheClose (st : CacheState) : CacheState :=
  { st with nodeCache := none, redisClient := none }

/-- Helper: looking up a key absent from `l` continues in the appended
tail. -/
theorem lookupAssoc_append {α : Type} (l m : List (String × α)) (k : String)
    (h : ∀ kv ∈ l, kv.1 ≠ k) : lookupAssoc (l ++ m) k = lookupAssoc m k := by
  induction l with
  | nil => rfl
  | cons hd tl ih =>
      have hhd : hd.1 ≠ k := h hd (by simp)
      simpa [lookupAssoc, hhd] using ih (fun kv hkv => h kv (by simp [hkv]))

/-- Helper: updating every entry whose key is `k` to `(k, v)` makes the
lookup of `k` return `v`, provided some entry has key `k`. -/
theorem lookupAssoc_map_update {α : Type} (l : List (String × α)) (k : String) (v : α)
    (h : l.any (fun kv => kv.1 = k) = true) :
    lookupAssoc (l.map (fun kv => if kv.1 = k then (k, v) else kv)) k = some v := by
  induction l with
  | nil => simp at h
  | cons hd tl ih =>
      rw [List.map_cons]
      by_cases hhd : hd.1 = k
      · rw [if_pos hhd]
        simp [lookupAssoc]
      · rw [if_neg hhd]
        rw [List.any_cons] at h
        have h2 : tl.any (fun kv => kv.1 = k) = true := by
          rcases Bool.or_eq_true_iff.mp h with h1 | h1
          · exact absurd (of_decide_eq_true h1) hhd
          · exact h1
        simp [lookupAssoc, hhd, ih h2]

/-- Helper: after `setAssoc l k v`, looking up `k` yields `v`. -/
theorem lookup_setAssoc_self {α : Type} (l : List (String × α)) (k : String) (v : α) :
    lookupAssoc (setAssoc l k v) k = some v := by
  unfold setAssoc
  by_cases hc : l.any (fun kv => kv.1 = k) = true
  · rw [if_pos hc]; exact lookupAssoc_map_update l k v hc
  · rw [if_neg hc]
    have hnone : ∀ kv ∈ l, kv.1 ≠ k := by
      intro kv hkv hEq
      exact hc (List.any_eq_true.mpr ⟨kv, hkv, by simp [hEq]⟩)
    rw [lookupAssoc_append l _ k hnone]
    simp [lookupAssoc]

/-- Helper: a successful lookup means some entry has the key. -/
theorem any_key_of_lookup {α : Type} (l : List (String × α)) (k : String) (v : α)
    (h : lookupAssoc l k = some v) : l.any (fun kv => kv.1 = k) = true := by
  induction l with
  | nil => simp [lookupAssoc] at h
  | cons hd tl ih =>
      by_cases hhd : hd.1 = k
      · simp [List.any_cons, hhd]
      · rw [lookupAssoc, if_neg hhd] at h
        simp [List.any_cons, ih h]

/-- Helper: every entry of `setAssoc l k v` whose key is `k` is `(k, v)`. -/
theorem mem_setAssoc_key {α : Type} (l : List (String × α)) (k : String) (v : α) :
    ∀ kv ∈ setAssoc l k v, kv.1 = k → kv = (k, v) := by
  intro kv hmem hk
  unfold setAssoc at hmem
  by_cases hc : l.any (fun kv => kv.1 = k) = true
  · rw [if_pos hc] at hmem
    obtain ⟨x, hx, hfx⟩ := List.mem_map.mp hmem
    by_cases hxk : x.1 = k
    · rw [if_pos hxk] at hfx; exact hfx.symm
    · rw [if_neg hxk] at hfx; exact absurd (hfx ▸ hk) hxk
  · rw [if_neg hc] at hmem
    rcases List.mem_append.mp hmem with hl | hr
    · exact absurd (List.any_eq_true.mpr ⟨kv, hl, by simp [hk]⟩) hc
    · simpa using hr

/-- Helper: writing the same binding twice is the same as writing it once. -/
theorem setAssoc_idem {α : Type} (l : List (String × α)) (k : String) (v : α) :
    setAssoc (setAssoc l k v) k v = setAssoc l k v := by
  have hany := any_key_of_lookup (setAssoc l k v) k v (lookup_setAssoc_self l k v)
  have hmem := mem_setAssoc_key l k v
  generalize hm : setAssoc l k v = m at hany hmem
  unfold setAssoc
  rw [if_pos hany]
  have hpt : ∀ kv ∈ m, (if kv.1 = k then (k, v) else kv) = id kv := by
    intro kv hkv
    by_cases hx : kv.1 = k
    · rw [if_pos hx, id_eq]; exact (hmem kv hkv hx).symm
    · rw [if_neg hx, id_eq]
  rw [List.map_congr_left hpt, List.map_id]

/-- Helper: removing an empty first occurrence changes nothing. -/
theorem removeFirst_nil (l : List Char) : removeFirst [] l = l := by
  cases l with
  | nil => rfl
  | cons c rest => simp [removeFirst, List.isPrefixOf]

/-- Helper: a list is a Boolean prefix of itself followed by anything. -/
theorem isPrefixOf_append_self (l t : List Char) : l.isPrefixOf (l ++ t) = true := by
  simp [List.isPrefixOf_iff_prefix]

/-- Helper: removing the first occurrence of `pat` from `pat ++ s` leaves
exactly `s`. -/
theorem removeFirst_append_self (pat s : List Char) : removeFirst pat (pat ++ s) = s := by
  cases pat with
  | nil => rw [List.nil_append]; exact removeFirst_nil s
  | cons p ps =>
      rw [List.cons_append, removeFirst,
        if_pos (by rw [← List.cons_append]; exact isPrefixOf_append_self (p :: ps) s),
        ← List.cons_append, List.drop_left]

/-- Helper: when `pat` does not occur in `l`, removal changes nothing. -/
theorem removeFirst_of_not_occurs (pat l : List Char) (h : occursIn pat l = false) :
    removeFirst pat l = l := by
  induction l with
  | nil => rfl
  | cons c rest ih =>
      rw [occursIn, Bool.or_eq_false_iff] at h
      rw [removeFirst, if_neg (by simp [h.1]), ih h.2]

/-- Helper: deleting the listed matching keys from the store equals
filtering the store by the negated match predicate (for an entry of the
store, membership of its key in the listed matching keys coincides with
the match predicate itself). -/
theorem nodeDel_filter (store : List (String × String)) (q : String → Bool) :
    store.filter (fun kv => !(decide (kv.1 ∈ (store.map Prod.fst).filter q)))
      = store.filter (fun kv => !(q kv.1)) := by
  refine List.filter_congr (fun kv hkv => ?_)
  cases hq : q kv.1 with
  | false =>
      have hnot : kv.1 ∉ (store.map Prod.fst).filter q := by
        intro hmem
        have := (List.mem_filter.mp hmem).2
        rw [hq] at this
        exact Bool.false_ne_true this
      simp [hnot]
  | true =>
      have hin : kv.1 ∈ (store.map Prod.fst).filter q :=
        List.mem_filter.mpr ⟨List.mem_map_of_mem Prod.fst hkv, hq⟩
      simp [hin]

/-- Concrete baseline state: one registered node namespace `"NS"` which is
current, an empty node cache, no Redis client, the constructor defaults in
the connection fields, and an empty file root (so `fileMakeKey` strips
nothing). -/
def stBase : CacheState :=
  { cacheNamespace := "NS", cacheNamespaces := [("NS", CacheType.node)],
    cacheEnabled := true, redisEnabled := true, nodeCache := some [],
    redisClient := none, redisStore := [], redisConnected := false,
    redisURL := "redis://127.0.0.1:6379", redisPort := "6379",
    redisUser := "user", redisPassword := "password", fileRoot := "" }

/-- Concrete state whose current namespace is of kind `redis` and whose
Redis connection is in a faulted state. -/
def stRedisFault : CacheState :=
  { stBase with
    cacheNamespaces := [("NS", CacheType.redis)],
    redisClient := some true, redisConnected := true }

/-- C1: the claim says a backend fault during the get inside `cacheGet` is
swallowed and `compute()` is returned for every backend kind.  On a
namespace of kind `redis` the source calls `this.#redis.get(cacheKey)` with
no `try` and never invokes the callback, so the fault propagates to the
caller instead of being swallowed: here the call returns the backend error,
not the compute value `"fresh"`. -/
theorem C1_cacheGet_redis_fault_propagates :
    cacheGet stRedisFault "k" "fresh" = Except.error JsErr.backendFault := rfl

/-- Concrete state whose current namespace is of kind `redis`, with Redis
caching disabled (`redisOff` semantics: `#redisEnabled = false`) and a
value stored under the key `"NS:k"`. -/
def stRedisDisabled : CacheState :=
  { stBase with
    cacheNamespaces := [("NS", CacheType.redis)],
    redisEnabled := false, redisClient := some false, redisConnected := true,
    redisStore := [("NS:k", "cached")] }

/-- C8: the claim says that with the current namespace's backend kind
disabled, `cacheGet` returns `compute()` directly and performs no backend
read.  On a namespace of kind `redis` the source's `cacheGet` never
consults `#redisEnabled` and never invokes the callback: it performs the
backend read and returns the stored value `"cached"`, not the compute
value `"fresh"`. -/
theorem C8_disabled_redis_still_reads :
    cacheGet stRedisDisabled "k" "fresh" = Except.ok (some "cached", stRedisDisabled) := rfl

/-- Concrete open state holding a cached value under the current node
namespace. -/
def stOpen : CacheState :=
  { stBase with nodeCache := some [("NS:k", "cached")] }

/-- C7 counterexample: the claim says every facade method invoked after
`cacheClose` fails fast with a `NotReady` error and never returns a value
by some other path.  After `cacheClose`, `cacheGet` on a node-kind
namespace hits the `null` `#cache`, the `catch` of `_cacheGet` swallows
the `TypeError`, and the call returns the compute value `"fresh"` — a
value produced by the fallback path, not an error of any kind. -/
theorem C7_after_close_returns_value :
    cacheGet (cacheClose stOpen) "k" "fresh"
      = Except.ok (some "fresh", cacheClose stOpen) := rfl

/-- C7 amended: after `cacheClose` both backend references are `null` and
stay `null` (no implicit reconnect); a subsequent `cacheGet` on a
non-redis-kind namespace swallows the `TypeError` and returns the compute
value, `cacheSet` is a logged no-op, and `cacheDrop` throws the raw
`TypeError` — there is no `NotReady` error anywhere in the source. -/
theorem C7_after_close_behavior (st : CacheState) (k cb v : String)
    (h : ¬ currentType (cacheClose st) = some CacheType.redis) :
    cacheGet (cacheClose st) k cb = Except.ok (some cb, cacheClose st) ∧
    cacheSet (cacheClose st) k v = Except.ok (cacheClose st) ∧
    cacheDrop (cacheClose st) k = Except.error JsErr.typeError ∧
    (cacheClose st).nodeCache = none ∧ (cacheClose st).redisClient = none := by
  refine ⟨?_, ?_, ?_, rfl, rfl⟩
  · rw [cacheGet, if_neg h]
    cases he : (cacheClose st).cacheEnabled <;>
      simp [cacheGetPriv, nodeGet, cacheClose, he]
  · rw [cacheSet, if_neg h]
    cases he : (cacheClose st).cacheEnabled <;>
      simp [cacheSetPriv, nodeSet, cacheClose, he]
  · rw [cacheDrop, if_neg h]
    simp [cacheDropPriv, cacheClose]

/-- C7 amended, witness at the concrete open state. -/
theorem C7_after_close_behavior_witness :
    cacheGet (cacheClose stOpen) "w" "cb" = Except.ok (some "cb", cacheClose stOpen) ∧
    cacheSet (cacheClose stOpen) "w" "v" = Except.ok (cacheClose stOpen) ∧
    cacheDrop (cacheClose stOpen) "w" = Except.error JsErr.typeError ∧
    (cacheClose stOpen).nodeCache = none ∧ (cacheClose stOpen).redisClient = none :=
  C7_after_close_behavior stOpen "w" "cb" "v" (by decide)

/-- The state after `cacheSet stBase "k" ""` stores the empty string under
the backend key `"NS:k"`. -/
def stEmptyVal : CacheState :=
  { stBase with nodeCache := some [("NS:k", "")] }

/-- The state after the recompute path of the subsequent `cacheGet`
overwrites the entry with the fresh compute value. -/
def stEmptyVal2 : CacheState :=
  { stBase with nodeCache := some [("NS:k", "x")] }

/-- C2 counterexample: the claim quantifies over every value `v`, but the
miss test of `_cacheGet` is the JS-falsy `if (!value)`, so after storing
the empty string the following `cacheGet` treats the present entry as a
miss, invokes the new callback and returns `"x"` instead of the stored
`""`. -/
theorem C2_falsy_value_recomputed :
    cacheSet stBase "k" "" = Except.ok stEmptyVal ∧
    cacheGet stEmptyVal "k" "x" = Except.ok (some "x", stEmptyVal2) := ⟨rfl, rfl⟩

/-- C2 amended: on a namespace served by the node path, with caching
enabled and the node cache present, `cacheSet` followed by `cacheGet` with
a different compute callback returns the previously stored value and not
the callback value — provided the stored value is truthy (a non-empty
string); a falsy stored value is treated as a miss by `if (!value)`. -/
theorem C2_roundtrip_truthy (st : CacheState) (k v cb : String)
    (store : List (String × String))
    (hns : ¬ currentType st = some CacheType.redis)
    (hen : st.cacheEnabled = true)
    (hc : st.nodeCache = some store)
    (hv : ¬ v = "") :
    cacheSet st k v
        = Except.ok { st with nodeCache := some (setAssoc store (fileMakeKeySt st k) v) } ∧
    cacheGet { st with nodeCache := some (setAssoc store (fileMakeKeySt st k) v) } k cb
        = Except.ok (some v,
            { st with nodeCache := some (setAssoc store (fileMakeKeySt st k) v) }) := by
  have hns2 : ¬ currentType { st with
      nodeCache := some (setAssoc store (fileMakeKeySt st k) v) } = some CacheType.redis := by
    simpa [currentType] using hns
  constructor
  · rw [cacheSet, if_neg hns]
    simp [cacheSetPriv, nodeSet, hen, hc]
  · rw [cacheGet, if_neg hns2]
    have hkey : fileMakeKeySt { st with
        nodeCache := some (setAssoc store (fileMakeKeySt st k) v) } k = fileMakeKeySt st k := rfl
    rw [hkey]
    simp [cacheGetPriv, nodeGet, hen, lookup_setAssoc_self, falsyValue, hv]

/-- C2 amended, witness at the concrete base state with value `"v"`. -/
theorem C2_roundtrip_truthy_witness :
    cacheSet stBase "k" "v"
        = Except.ok { stBase with nodeCache := some (setAssoc [] (fileMakeKeySt stBase "k") "v") } ∧
    cacheGet { stBase with nodeCache := some (setAssoc [] (fileMakeKeySt stBase "k") "v") } "k" "w"
        = Except.ok (some "v",
            { stBase with nodeCache := some (setAssoc [] (fileMakeKeySt stBase "k") "v") }) :=
  C2_roundtrip_truthy stBase "k" "v" "w" [] (by decide) rfl rfl (by decide)

/-- Namespace configuration object with a string name and type and no
other field set, as a caller would pass `{name: ..., type: ...}`. -/
def mkNsArg (n t : String) : NamespaceArg :=
  { name := JsVal.vStr n, type := JsVal.vStr t,
    url := JsVal.vUndef, port := JsVal.vUndef,
    user := JsVal.vUndef, password := JsVal.vUndef }

/-- Concrete pristine state mirroring the singleton right after
`_cacheInit`, before any namespace registration. -/
def stFresh : CacheState :=
  { cacheNamespace := "MicroCODE", cacheNamespaces := [], cacheEnabled := true,
    redisEnabled := true, nodeCache := some [], redisClient := none, redisStore := [],
    redisConnected := false, redisURL := "redis://127.0.0.1:6379", redisPort := "6379",
    redisUser := "user", redisPassword := "password", fileRoot := "" }

/-- C3 counterexample: the claim says re-registering a name with a
different kind is a warn-and-no-op that preserves the original mapping.
The source writes `this.#cacheNamespaces[namespace.name] = namespace.type`
unconditionally, so registering `"A"` as `'node'` and then as `'redis'`
leaves the registry mapping `"A"` to `redis`, not to the original `node`. -/
theorem C3_reregistration_overwrites :
    (addNamespace stFresh (mkNsArg "A" "node")).2.cacheNamespaces
        = [("A", CacheType.node)] ∧
    (addNamespace (addNamespace stFresh (mkNsArg "A" "node")).2
        (mkNsArg "A" "redis")).2.cacheNamespaces
      = [("A", CacheType.redis)] ∧
    [("A", CacheType.redis)] ≠ [("A", CacheType.node)] := ⟨rfl, rfl, by decide⟩

/-- C3 amended: re-registering the same name with the same kind leaves the
whole state unchanged (idempotent), but re-registering with a different
valid kind is not rejected: the registry write is unconditional, so the
mapping becomes the newly supplied kind (last write wins). -/
theorem C3_registration_last_write_wins (st : CacheState) (n : String) (h : ¬ n = "") :
    (addNamespace (addNamespace st (mkNsArg n "node")).2 (mkNsArg n "node")).2
        = (addNamespace st (mkNsArg n "node")).2 ∧
    lookupAssoc
        (addNamespace (addNamespace st (mkNsArg n "node")).2
          (mkNsArg n "redis")).2.cacheNamespaces n
      = some CacheType.redis := by
  have hreg : (addNamespace st (mkNsArg n "node")).2
      = { st with cacheNamespaces := setAssoc st.cacheNamespaces n CacheType.node } := by
    simp [addNamespace, mkNsArg, JsVal.falsy, JsVal.toStr, h]
  constructor
  · rw [hreg]
    simp [addNamespace, mkNsArg, JsVal.falsy, JsVal.toStr, h, setAssoc_idem]
  · rw [hreg]
    by_cases hr : st.redisClient = none
    · simp [addNamespace, mkNsArg, JsVal.falsy, JsVal.toStr, h, hr, redisInit,
        lookup_setAssoc_self]
    · simp [addNamespace, mkNsArg, JsVal.falsy, JsVal.toStr, h, hr, lookup_setAssoc_self]

/-- C3 amended, witness at the pristine state with name `"B"`. -/
theorem C3_registration_last_write_wins_witness :
    (addNamespace (addNamespace stFresh (mkNsArg "B" "node")).2 (mkNsArg "B" "node")).2
        = (addNamespace stFresh (mkNsArg "B" "node")).2 ∧
    lookupAssoc
        (addNamespace (addNamespace stFresh (mkNsArg "B" "node")).2
          (mkNsArg "B" "redis")).2.cacheNamespaces "B"
      = some CacheType.redis :=
  C3_registration_last_write_wins stFresh "B" (by decide)

/-- C10: registering the first redis-kind namespace while `#redis` is
`null` writes the defaulted `url`, `port`, `user` and `password` fields
into the caller-supplied configuration object itself, so the argument does
not come back unchanged. -/
theorem C10_addNamespace_mutates_arg (st : CacheState) (n : String)
    (hn : ¬ n = "") (hr : st.redisClient = none) :
    (addNamespace st (mkNsArg n "redis")).1
        = { mkNsArg n "redis" with
            url := JsVal.vStr st.redisURL, port := JsVal.vNum 6379,
            user := JsVal.vNull, password := JsVal.vNull } ∧
    (addNamespace st (mkNsArg n "redis")).1 ≠ mkNsArg n "redis" := by
  have h1 : (addNamespace st (mkNsArg n "redis")).1
      = { mkNsArg n "redis" with
          url := JsVal.vStr st.redisURL, port := JsVal.vNum 6379,
          user := JsVal.vNull, password := JsVal.vNull } := by
    simp [addNamespace, mkNsArg, JsVal.falsy, hn, hr]
  refine ⟨h1, ?_⟩
  rw [h1]
  intro heq
  have hurl := congrArg NamespaceArg.url heq
  simp [mkNsArg] at hurl

/-- C10, witness at the pristine state with name `"R"`. -/
theorem C10_addNamespace_mutates_arg_witness :
    (addNamespace stFresh (mkNsArg "R" "redis")).1
        = { mkNsArg "R" "redis" with
            url := JsVal.vStr stFresh.redisURL, port := JsVal.vNum 6379,
            user := JsVal.vNull, password := JsVal.vNull } ∧
    (addNamespace stFresh (mkNsArg "R" "redis")).1 ≠ mkNsArg "R" "redis" :=
  C10_addNamespace_mutates_arg stFresh "R" (by decide) rfl

/-- C4 counterexample: the claim says `cacheMakeKey` is exactly the
composition of the five listed steps with no other transformation.  The
source contains a sixth step, `key.replace(/\s/g, ' ')`, which rewrites
every whitespace character to a space: on the raw key `"a\tb"` the source
yields `"NS:a b"` while the five-step composition yields `"NS:a\tb"`. -/
theorem C4_whitespace_step_divergence :
    cacheMakeKey "NS" "a\tb" = "NS:a b" ∧
    specNormalize "NS" "a\tb" = "NS:a\tb" ∧
    ("NS:a b" : String) ≠ "NS:a\tb" := ⟨rfl, rfl, by decide⟩

/-- C4 amended: `cacheMakeKey` is the five-step composition of the claim
with one additional step between (1) and (2) that replaces every
whitespace character by a space; on raw keys whose whitespace characters
are already plain spaces the two agree, and on such keys the claim's
consequences hold: the slash example and the empty raw key yielding just
the namespace prefix. -/
theorem C4_normalize_amended (ns key : String)
    (h : ∀ c ∈ key.toList, isJsSpace c = true → c = ' ') :
    cacheMakeKey ns key = specNormalize ns key ∧
    cacheMakeKey "NS" "a/b\\c" = "NS:a:b:c" ∧
    cacheMakeKey "NS" "" = "NS:" := by
  refine ⟨?_, rfl, rfl⟩
  have hpt : ∀ c ∈ key.toList.map sepToColon,
      (if isJsSpace c then ' ' else c) = id c := by
    intro c hc
    obtain ⟨c0, hc0, rfl⟩ := List.mem_map.mp hc
    rw [id_eq]
    by_cases hsep : c0 = '/' ∨ c0 = '\\'
    · rw [sepToColon, if_pos hsep]
      decide
    · rw [sepToColon, if_neg hsep]
      by_cases hs : isJsSpace c0 = true
      · rw [if_pos hs, h c0 hc0 hs]
      · rw [if_neg hs]
  have hmap : (key.toList.map sepToColon).map (fun c => if isJsSpace c then ' ' else c)
      = key.toList.map sepToColon := by
    rw [List.map_congr_left hpt, List.map_id]
  simp only [cacheMakeKey, specNormalize]
  rw [hmap]

/-- C4 amended, witness at the slash example (which has no whitespace). -/
theorem C4_normalize_amended_witness :
    cacheMakeKey "NS" "a/b\\c" = specNormalize "NS" "a/b\\c" ∧
    cacheMakeKey "NS" "a/b\\c" = "NS:a:b:c" ∧
    cacheMakeKey "NS" "" = "NS:" :=
  C4_normalize_amended "NS" "a/b\\c" (by decide)

/-- C5 counterexample: the claim says the compiler escapes all regex
metacharacters of the pattern except the four glob characters, so the
pattern `"a.c"` should match only the literal string `"a.c"`.  The source
escapes nothing but `[` and `]`, so the `.` stays a raw regex
any-character class and `"axc"` is accepted; under the claim's semantics it
is rejected. -/
theorem C5_dot_not_escaped :
    globTest "a.c" "axc" = some true ∧ specGlobTest "a.c" "axc" = false := ⟨rfl, rfl⟩

/-- C5 amended: among regex metacharacters the compiler escapes only `[`
and `]` (which therefore still match themselves literally), maps `*` to
zero-or-more-of-any-character and `?` to exactly-one-of-any-character,
leaves every other character raw in the regex — so an unescaped `.` in the
pattern also matches any single character — and anchors the match to the
whole candidate string; the claim's concrete examples all hold. -/
theorem C5_glob_amended (c : Char)
    (h : c ∉ ('*' :: '?' :: '.' :: jsRegexSpecial)) :
    compileAtom c = some (GlobAtom.lit c) ∧
    compileAtom '*' = some GlobAtom.anyStar ∧
    compileAtom '?' = some GlobAtom.anyOne ∧
    compileAtom '[' = some (GlobAtom.lit '[') ∧
    compileAtom ']' = some (GlobAtom.lit ']') ∧
    compileAtom '.' = some GlobAtom.anyOne ∧
    globTest "a*c" "abc" = some true ∧
    globTest "a*c" "ac" = some true ∧
    globTest "a*c" "abd" = some false ∧
    globTest "a?c" "abc" = some true ∧
    globTest "a?c" "ac" = some false ∧
    globTest "ac" "acd" = some false := by
  have h1 : ¬ c = '*' := fun e => h (by simp [e])
  have h2 : ¬ c = '?' := fun e => h (by simp [e])
  have h3 : ¬ c = '.' := fun e => h (by simp [e])
  have h4 : ¬ c ∈ jsRegexSpecial := fun hm => h (by simp [hm])
  refine ⟨?_, rfl, rfl, rfl, rfl, rfl, rfl, rfl, rfl, rfl, rfl, rfl⟩
  rw [compileAtom, if_neg h1, if_neg h2]
  by_cases hb : c = '['
  · rw [if_pos hb, hb]
  · rw [if_neg hb]
    by_cases hb2 : c = ']'
    · rw [if_pos hb2, hb2]
    · rw [if_neg hb2, if_neg h3, if_neg h4]

/-- C5 amended, witness at the ordinary character `'a'`. -/
theorem C5_glob_amended_witness :
    compileAtom 'a' = some (GlobAtom.lit 'a') ∧
    compileAtom '*' = some GlobAtom.anyStar ∧
    compileAtom '?' = some GlobAtom.anyOne ∧
    compileAtom '[' = some (GlobAtom.lit '[') ∧
    compileAtom ']' = some (GlobAtom.lit ']') ∧
    compileAtom '.' = some GlobAtom.anyOne ∧
    globTest "a*c" "abc" = some true ∧
    globTest "a*c" "ac" = some true ∧
    globTest "a*c" "abd" = some false ∧
    globTest "a?c" "abc" = some true ∧
    globTest "a?c" "ac" = some false ∧
    globTest "ac" "acd" = some false :=
  C5_glob_amended 'a' (by decide)

/-- C9 counterexample: the claim says an occurrence of the root strictly
inside the path, not at its start, leaves the path unchanged.  The source
uses `filePath.replace(root, '')`, which removes the first occurrence
anywhere: for root `"/root"` and path `"/x/root/a"` the source produces
the key of `"/x/a"`, while the claim's prefix-only behaviour keeps
`"/x/root/a"`. -/
theorem C9_inner_occurrence_removed :
    fileMakeKey "/root" "NS" "/x/root/a" = "NS:x:a" ∧
    fileMakeKeySpec "/root" "NS" "/x/root/a" = "NS:x:root:a" ∧
    ("NS:x:a" : String) ≠ "NS:x:root:a" := ⟨rfl, rfl, by decide⟩

/-- C9 amended: `fileMakeKey` removes the first occurrence of the root
anywhere in the path — in particular the prefix occurrence when the path
starts with the root — by a single non-recursive substring removal (a
second adjacent occurrence survives), and passes the path through
unchanged exactly when the root does not occur in it at all, before
delegating to `cacheMakeKey`. -/
theorem C9_fileMakeKey_amended (root ns fp rest : String)
    (h : occursIn root.toList fp.toList = false) :
    fileMakeKey root ns fp = cacheMakeKey ns fp ∧
    fileMakeKey root ns (root ++ rest) = cacheMakeKey ns rest ∧
    fileMakeKey root ns (root ++ root ++ rest) = cacheMakeKey ns (root ++ rest) := by
  refine ⟨?_, ?_, ?_⟩
  · rw [fileMakeKey, removeFirst_of_not_occurs root.toList fp.toList h]
    rfl
  · rw [fileMakeKey]
    have e : (root ++ rest).toList = root.toList ++ rest.toList := by
      simp [String.toList, String.data_append]
    rw [e, removeFirst_append_self]
    rfl
  · rw [fileMakeKey]
    have e2 : (root ++ root ++ rest).toList
        = root.toList ++ (root.toList ++ rest.toList) := by
      simp [String.toList, String.data_append, List.append_assoc]
    have e3 : root.toList ++ rest.toList = (root ++ rest).toList := by
      simp [String.toList, String.data_append]
    rw [e2, removeFirst_append_self, e3]
    rfl

/-- C9 amended, witness at a root not occurring in the path. -/
theorem C9_fileMakeKey_amended_witness :
    fileMakeKey "/root" "NS" "/a/b" = cacheMakeKey "NS" "/a/b" ∧
    fileMakeKey "/root" "NS" ("/root" ++ "/c/d") = cacheMakeKey "NS" "/c/d" ∧
    fileMakeKey "/root" "NS" ("/root" ++ "/root" ++ "/c/d")
      = cacheMakeKey "NS" ("/root" ++ "/c/d") :=
  C9_fileMakeKey_amended "/root" "NS" "/a/b" "/c/d" (by decide)

/-- Concrete state for the bulk-invalidation fault counterexample: the
registry holds namespace `"A"` of kind `redis` (iterated first) with a
faulted connection, and namespace `"B"` of kind `node` holding the key
`"B:x"`. -/
def stC6Fault : CacheState :=
  { stBase with
    cacheNamespace := "A",
    cacheNamespaces := [("A", CacheType.redis), ("B", CacheType.node)],
    nodeCache := some [("B:x", "1")],
    redisClient := some true, redisStore := [("A:y", "2")], redisConnected := true }

/-- C6 counterexample: the claim says a fault in one namespace's backend
does not abort processing of the remaining namespaces and that the call
returns the summed deletion count.  The loop of `cacheDropAll` has no
`try`, so the fault raised while processing `"A"` propagates out of the
whole method: namespace `"B"` is never visited and no count is returned. -/
theorem C6_fault_aborts_loop :
    cacheDropAll stC6Fault "*" "*" "*" = Except.error JsErr.backendFault := rfl

/-- Concrete two-namespace state for the scoped bulk invalidation: node
namespace `"A"` and redis namespace `"B"`, with arbitrary store contents. -/
def mkC6State (nodeStore rs : List (String × String)) : CacheState :=
  { cacheNamespace := "A",
    cacheNamespaces := [("A", CacheType.node), ("B", CacheType.redis)],
    cacheEnabled := true, redisEnabled := true,
    nodeCache := some nodeStore, redisClient := some false, redisStore := rs,
    redisConnected := true, redisURL := "", redisPort := "",
    redisUser := "", redisPassword := "", fileRoot := "" }

/-- C6 amended: in a fault-free run, `cacheDropAll` visits the registered
namespaces in order, deletes the keys matching `"<namespace>:<pattern>"`
only in namespaces passing both the backend and the namespace filter, and
returns the count of the keys it listed (equal, fault-free, to the number
deleted); filtering on namespace `"A"` leaves the redis store of `"B"`
untouched.  A fault, however, aborts the whole loop rather than being
confined to its namespace. -/
theorem C6_dropAll_scoped (nodeStore rs : List (String × String)) (p : String)
    (atoms : List GlobAtom) (h : compileGlob ("A" ++ ":" ++ p) = some atoms) :
    cacheDropAll (mkC6State nodeStore rs) "*" "A" p
      = Except.ok
          (((nodeStore.map Prod.fst).filter
              (fun k => matchAtoms jsDot atoms k.toList)).length,
            { mkC6State nodeStore rs with
              nodeCache := some (nodeStore.filter
                (fun kv => !(matchAtoms jsDot atoms kv.1.toList))) }) := by
  have h2 : compileGlob ("A:" ++ p) = some atoms := by
    rw [show ("A:" : String) = "A" ++ ":" from rfl]
    exact h
  have hkeys : cacheKeysPriv (mkC6State nodeStore rs) ("A" ++ ":" ++ p)
      = Except.ok ((nodeStore.map Prod.fst).filter
          (fun k => matchAtoms jsDot atoms k.toList)) := by
    simp [cacheKeysPriv, mkC6State, h2]
  show cacheDropAllGo "*" "A" p [("A", CacheType.node), ("B", CacheType.redis)]
      (mkC6State nodeStore rs) 0 = _
  rw [cacheDropAllGo, if_pos (Or.inl rfl : ("A" : String) = "A" ∨ ("A" : String) = "*")]
  rw [if_pos (Or.inr rfl : ("*" : String) = "node" ∨ ("*" : String) = "*")]
  rw [hkeys]
  show cacheDropAllGo "*" "A" p [("B", CacheType.redis)] _ _ = _
  rw [cacheDropAllGo,
    if_neg (by decide : ¬(("B" : String) = "A" ∨ ("A" : String) = "*"))]
  rw [cacheDropAllGo]
  simp [nodeDelAll, mkC6State, nodeDel_filter]

/-- C6 amended, witness at concrete stores and the pattern `"foo*"`. -/
theorem C6_dropAll_scoped_witness :
    cacheDropAll (mkC6State [("A:foo", "1"), ("B:x", "2")] [("B:y", "3")]) "*" "A" "foo*"
      = Except.ok
          ((([("A:foo", "1"), ("B:x", "2")].map Prod.fst).filter
              (fun k => matchAtoms jsDot
                [GlobAtom.lit 'A', GlobAtom.lit ':', GlobAtom.lit 'f', GlobAtom.lit 'o',
                  GlobAtom.lit 'o', GlobAtom.anyStar] k.toList)).length,
            { mkC6State [("A:foo", "1"), ("B:x", "2")] [("B:y", "3")] with
              nodeCache := some ([("A:foo", "1"), ("B:x", "2")].filter
                (fun kv => !(matchAtoms jsDot
                  [GlobAtom.lit 'A', GlobAtom.lit ':', GlobAtom.lit 'f', GlobAtom.lit 'o',
                    GlobAtom.lit 'o', GlobAtom.anyStar] kv.1.toList))) }) :=
  C6_dropAll_scoped [("A:foo", "1"), ("B:x", "2")] [("B:y", "3")] "foo*"
    [GlobAtom.lit 'A', GlobAtom.lit ':', GlobAtom.lit 'f', GlobAtom.lit 'o',
      GlobAtom.lit 'o', GlobAtom.anyStar] (by decide)
